/-
Verification of the slackcli core against its natural-language specification.

The TypeScript sources are shallowly embedded: pure functions become Lean
functions, stateful code becomes explicit state passing, and network calls
are modelled by oracle parameters supplying the remote responses while each
operation additionally returns the trace of requests it issued.  JavaScript
objects used as string-keyed maps are modelled as insertion-ordered
association lists, matching JS property-insertion order for non-index keys.
-/
import Mathlib

/-! ## JavaScript value helpers -/

/-- Truthiness of an optional JS string: `undefined` and `""` are falsy. -/
def strTruthy : Option String → Bool
  | none => false
  | some s => !(s = "")

/-- `obj[k] = v` on a JS object: updates the entry in place if the key is
present, otherwise appends it (JS property-insertion order). -/
def objSet (m : List (String × α)) (k : String) (v : α) : List (String × α) :=
  if m.any (fun p => p.1 = k) then
    m.map (fun p => if p.1 = k then (k, v) else p)
  else
    m ++ [(k, v)]

/-- `delete obj[k]` on a JS object. -/
def objDelete (m : List (String × α)) (k : String) : List (String × α) :=
  m.filter (fun p => !(p.1 = k))

/-- `Object.keys(obj)` (insertion order). -/
def objKeys (m : List (String × α)) : List String :=
  m.map (fun p => p.1)

/-- `obj[k]` lookup, `none` for `undefined`. -/
def objGet (m : List (String × α)) (k : String) : Option α :=
  (m.find? (fun p => p.1 = k)).map (fun p => p.2)

/-! ## Data model (src/types/index.ts) -/

/-- `TokenType` from src/types/index.ts. -/
inductive TokenType
  | bot
  | user
deriving DecidableEq

/-- `WorkspaceConfig = StandardAuthConfig | BrowserAuthConfig`, the tagged
union discriminated by `auth_type` (src/types/index.ts). -/
inductive WorkspaceConfig
  | standard (workspace_id workspace_name token : String) (token_type : TokenType)
  | browser (workspace_id workspace_name workspace_url xoxd_token xoxc_token : String)
deriving DecidableEq

def WorkspaceConfig.workspace_id : WorkspaceConfig → String
  | .standard i _ _ _ => i
  | .browser i _ _ _ _ => i

def WorkspaceConfig.workspace_name : WorkspaceConfig → String
  | .standard _ n _ _ => n
  | .browser _ n _ _ _ => n

/-- `WorkspacesData` from src/types/index.ts: the persisted credential
store state. -/
structure WorkspacesData where
  default_workspace : Option String
  workspaces : List (String × WorkspaceConfig)
deriving DecidableEq

/-! ## Credential store (src/lib/workspaces.ts)

`loadWorkspaces`/`saveWorkspaces` do file I/O; the mutating operations are
embedded as pure state transformers on the loaded `WorkspacesData`. -/

/-- `addWorkspace` (src/lib/workspaces.ts): insert or update the entry under
`config.workspace_id`; promote to default when no default is recorded
(the JS check `!data.default_workspace` is a truthiness test). -/
def addWorkspace (data : WorkspacesData) (config : WorkspaceConfig) : WorkspacesData :=
  let ws := objSet data.workspaces config.workspace_id config
  let dw := if strTruthy data.default_workspace then data.default_workspace
            else some config.workspace_id
  ⟨dw, ws⟩

/-- `removeWorkspace` (src/lib/workspaces.ts): fails if the key is absent;
after deletion, if the removed key was the default, re-point the default to
the first remaining key, or clear it when none remain. -/
def removeWorkspace (data : WorkspacesData) (workspaceId : String) :
    Except String WorkspacesData :=
  if (objGet data.workspaces workspaceId).isNone then
    .error ("Workspace " ++ workspaceId ++ " not found")
  else
    let ws := objDelete data.workspaces workspaceId
    let dw := if data.default_workspace = some workspaceId then
                match objKeys ws with
                | [] => none
                | k :: _ => some k
              else data.default_workspace
    .ok ⟨dw, ws⟩

/-! ## Percent-encoding and -decoding (JS `encodeURIComponent` /
`decodeURIComponent`, used by the browser transport and the cURL parser) -/

/-- UTF-8 bytes of a character. -/
def utf8Bytes (c : Char) : List Nat :=
  let n := c.toNat
  if n < 0x80 then [n]
  else if n < 0x800 then [0xC0 + n / 64, 0x80 + n % 64]
  else if n < 0x10000 then [0xE0 + n / 4096, 0x80 + n / 64 % 64, 0x80 + n % 64]
  else [0xF0 + n / 262144, 0x80 + n / 4096 % 64, 0x80 + n / 64 % 64, 0x80 + n % 64]

/-- Characters `encodeURIComponent` leaves unescaped. -/
def isUriUnreserved (c : Char) : Bool :=
  c.isAlphanum || c = '-' || c = '_' || c = '.' || c = '!' || c = '~' ||
    c = '*' || c = '\'' || c = '(' || c = ')'

def hexDigitUpper (n : Nat) : Char :=
  if n < 10 then Char.ofNat ('0'.toNat + n) else Char.ofNat ('A'.toNat + n - 10)

/-- JS `encodeURIComponent`: unreserved characters pass through, every other
character is written as the `%XX` escapes of its UTF-8 bytes. -/
def encodeURIComponent (s : String) : String :=
  String.mk (s.data.flatMap (fun c =>
    if isUriUnreserved c then [c]
    else (utf8Bytes c).flatMap (fun b => ['%', hexDigitUpper (b / 16), hexDigitUpper (b % 16)])))

/-- Value of a hexadecimal digit (both cases, as accepted by
`decodeURIComponent`). -/
def hexVal (c : Char) : Option Nat :=
  if '0' ≤ c && c ≤ '9' then some (c.toNat - '0'.toNat)
  else if 'A' ≤ c && c ≤ 'F' then some (c.toNat - 'A'.toNat + 10)
  else if 'a' ≤ c && c ≤ 'f' then some (c.toNat - 'a'.toNat + 10)
  else none

/-- A literal character or a `%XX`-escaped byte. -/
inductive PctTok
  | lit (c : Char)
  | byte (b : Nat)
deriving DecidableEq

/-- Tokenize a string into literal characters and `%XX` escapes; a `%` not
followed by two hex digits is a `URIError`. -/
def pctTokens : List Char → Option (List PctTok)
  | [] => some []
  | '%' :: h1 :: h2 :: rest =>
    match hexVal h1, hexVal h2 with
    | some a, some b => (pctTokens rest).map (PctTok.byte (a * 16 + b) :: ·)
    | _, _ => none
  | '%' :: _ => none
  | c :: rest => (pctTokens rest).map (PctTok.lit c :: ·)

/-- Whether a byte is a UTF-8 continuation byte. -/
def isContByte (b : Nat) : Bool := 0x80 ≤ b && b < 0xC0

/-- Decode the token stream: escaped bytes must form valid (shortest-form,
non-surrogate) UTF-8 sequences whose continuation bytes are also escapes,
as `decodeURIComponent` requires; otherwise a `URIError`. -/
def decodeTokens : List PctTok → Option (List Char)
  | [] => some []
  | .lit c :: rest => (decodeTokens rest).map (c :: ·)
  | .byte b0 :: rest =>
    if b0 < 0x80 then (decodeTokens rest).map (Char.ofNat b0 :: ·)
    else if b0 < 0xC2 then none
    else if b0 < 0xE0 then
      match rest with
      | .byte b1 :: rest2 =>
        if isContByte b1 then
          (decodeTokens rest2).map (Char.ofNat ((b0 - 0xC0) * 64 + (b1 - 0x80)) :: ·)
        else none
      | _ => none
    else if b0 < 0xF0 then
      match rest with
      | .byte b1 :: .byte b2 :: rest3 =>
        let cp := (b0 - 0xE0) * 4096 + (b1 - 0x80) * 64 + (b2 - 0x80)
        if isContByte b1 && isContByte b2 && 0x800 ≤ cp &&
            !(0xD800 ≤ cp && cp ≤ 0xDFFF) then
          (decodeTokens rest3).map (Char.ofNat cp :: ·)
        else none
      | _ => none
    else if b0 < 0xF5 then
      match rest with
      | .byte b1 :: .byte b2 :: .byte b3 :: rest4 =>
        let cp := (b0 - 0xF0) * 262144 + (b1 - 0x80) * 4096 + (b2 - 0x80) * 64 + (b3 - 0x80)
        if isContByte b1 && isContByte b2 && isContByte b3 &&
            0x10000 ≤ cp && cp ≤ 0x10FFFF then
          (decodeTokens rest4).map (Char.ofNat cp :: ·)
        else none
      | _ => none
    else none

/-- JS `decodeURIComponent`; `none` models a thrown `URIError`. -/
def decodeURIComponent (s : String) : Option String :=
  ((pctTokens s.data).bind decodeTokens).map String.mk

/-! ## API client transports (src/lib/slack-client.ts)

`SlackClient.request` inspects the bound credential's `auth_type` and
dispatches either to `standardRequest` (the `@slack/web-api` `WebClient`,
constructed from the stored bearer token) or to `browserRequest` (a POST to
`workspace_url ++ "/api/" ++ method` with cookie/form-token headers).  The
embedding returns the transport-level request each dispatch constructs. -/

/-- The single low-level request an API call turns into. -/
inductive Transport
  | sdkCall (token : String) (method : String) (params : List (String × String))
  | browserPost (url : String) (headers : List (String × String)) (body : List (String × String))
deriving DecidableEq

/-- The headers `browserRequest` constructs, with the xoxd session token
percent-encoded into the cookie. -/
def browserHeaders (xoxd_token : String) : List (String × String) :=
  [("Cookie", "d=" ++ encodeURIComponent xoxd_token),
   ("Content-Type", "application/x-www-form-urlencoded"),
   ("Origin", "https://app.slack.com"),
   ("User-Agent", "Mozilla/5.0 (compatible; SlackCLI/0.1.0)")]

/-- The `URLSearchParams` body of `browserRequest`: the object literal
spreads `params` over an initial `token` entry, so a `token` key in
`params` overrides the xoxc token in place. -/
def browserBody (xoxc_token : String) (params : List (String × String)) :
    List (String × String) :=
  params.foldl (fun acc p => objSet acc p.1 p.2) [("token", xoxc_token)]

/-- `SlackClient.request` (src/lib/slack-client.ts): the generic "invoke
remote method" primitive, routed by the bound credential's `auth_type`. -/
def SlackClient.request (config : WorkspaceConfig) (method : String)
    (params : List (String × String)) : Transport :=
  match config with
  | .standard _ _ token _ => .sdkCall token method params
  | .browser _ _ workspace_url xoxd_token xoxc_token =>
    .browserPost (workspace_url ++ "/api/" ++ method)
      (browserHeaders xoxd_token) (browserBody xoxc_token params)

/-- Whether a transport-level request carries a `Cookie` header. -/
def Transport.hasCookieHeader : Transport → Bool
  | .sdkCall _ _ _ => false
  | .browserPost _ headers _ => headers.any (fun h => h.1 = "Cookie")

/-- Whether a transport-level request is a POST to the browser path
`{workspace_url}/api/{method}`. -/
def Transport.isBrowserPost : Transport → Bool
  | .sdkCall _ _ _ => false
  | .browserPost _ _ _ => true

/-- Whether a transport-level request goes through the bearer-token SDK
transport. -/
def Transport.isSdkCall : Transport → Bool
  | .sdkCall _ _ _ => true
  | .browserPost _ _ _ => false

/-! ## JSON string escaping (JS `JSON.stringify` on strings), used by
`completeUpload` and `createDraft` when serializing structured params. -/

def jsonEscapeChar (c : Char) : List Char :=
  if c = '"' then ['\\', '"']
  else if c = '\\' then ['\\', '\\']
  else if c = '\n' then ['\\', 'n']
  else if c = '\r' then ['\\', 'r']
  else if c = '\t' then ['\\', 't']
  else if c.toNat = 8 then ['\\', 'b']
  else if c.toNat = 12 then ['\\', 'f']
  else if c.toNat < 0x20 then
    ['\\', 'u', '0', '0', hexDigitUpper (c.toNat / 16) |>.toLower,
     (hexDigitUpper (c.toNat % 16)).toLower]
  else [c]

/-- `JSON.stringify` of a string value. -/
def jsonStr (s : String) : String :=
  String.mk ('"' :: s.data.flatMap jsonEscapeChar ++ ['"'])

/-! ## Three-step file upload (src/lib/slack-client.ts, `getUploadUrl`,
`uploadToUrl`, `completeUpload`, `uploadFiles`)

The trace records, in order, every remote interaction `uploadFiles`
performs: the `files.getUploadURLExternal` presign calls, the raw POSTs of
the file bytes to the presigned URLs, and the `files.completeUploadExternal`
call.  Responses come from an environment oracle indexed by file position. -/

/-- Response shape of `files.getUploadURLExternal` (the fields the code
reads). -/
structure FileUploadUrlResponse where
  upload_url : String
  file_id : String
deriving DecidableEq

/-- One `{ id, title? }` entry of the `files` parameter of
`files.completeUploadExternal`. -/
structure FileEntry where
  id : String
  title : Option String
deriving DecidableEq

/-- A remote interaction performed during `uploadFiles`. -/
inductive UploadEvent
  /-- `files.getUploadURLExternal` with `{ filename, length: String(length) }`. -/
  | presign (filename : String) (length : String)
  /-- Direct POST of the file bytes to the presigned URL (`uploadToUrl`);
  the `fetch` passes no headers and no workspace credential. -/
  | rawPost (url : String) (content : List Nat) (filename : String)
      (headers : List (String × String))
  /-- `files.completeUploadExternal` bundling all file entries plus the
  optional channel/thread/comment. -/
  | complete (files : List FileEntry) (channel_id thread_ts initial_comment : Option String)
deriving DecidableEq

/-- Environment for a run of `uploadFiles`: file contents on disk and the
remote responses, indexed by the file's position in the argument list. -/
structure UploadEnv where
  /-- Bytes of the file at a path (`Bun.file(path).arrayBuffer()`). -/
  fileBytes : String → List Nat
  /-- Outcome of the i-th presign call, `Except` modelling a thrown error. -/
  presignResp : Nat → Except String FileUploadUrlResponse
  /-- HTTP status of the i-th raw POST (`response.ok` is 200–299). -/
  postStatus : Nat → Nat
  /-- Outcome of the final complete call. -/
  completeResp : Except String (List FileEntry)

/-- `filePath.split('/').pop() || 'file'` from `uploadFiles`. -/
def jsBasename (filePath : String) : String :=
  let last := ((filePath.splitOn "/").getLast?).getD ""
  if last = "" then "file" else last

/-- The per-file loop body of `uploadFiles`: for each path, presign with the
filename and exact byte length (as a string), POST the bytes to the returned
URL, and collect `{ id, title? }` where the title is attached only when
`options.titles?.[i]` is truthy. -/
def uploadFilesGo (env : UploadEnv) (titles : List String) :
    List String → Nat → Except String (List FileEntry) × List UploadEvent
  | [], _ => (.ok [], [])
  | filePath :: rest, i =>
    let fileContent := env.fileBytes filePath
    let filename := jsBasename filePath
    let length := fileContent.length
    let ev1 := UploadEvent.presign filename (toString length)
    match env.presignResp i with
    | .error e => (.error e, [ev1])
    | .ok resp =>
      let ev2 := UploadEvent.rawPost resp.upload_url fileContent filename []
      let status := env.postStatus i
      if 200 ≤ status && status < 300 then
        let title := match titles.get? i with
                     | some t => if t = "" then none else some t
                     | none => none
        let entry : FileEntry := ⟨resp.file_id, title⟩
        let next := uploadFilesGo env titles rest (i + 1)
        ((next.1).map (entry :: ·), ev1 :: ev2 :: next.2)
      else
        (.error ("File upload failed: HTTP " ++ toString status), [ev1, ev2])

/-- `SlackClient.uploadFiles` (src/lib/slack-client.ts): upload every file
end-to-end, then issue one single `files.completeUploadExternal` call
bundling all collected file entries. -/
def uploadFiles (env : UploadEnv) (filePaths : List String) (titles : List String)
    (channel_id thread_ts initial_comment : Option String) :
    Except String (List FileEntry) × List UploadEvent :=
  let run := uploadFilesGo env titles filePaths 0
  match run.1 with
  | .error e => (.error e, run.2)
  | .ok fileEntries =>
    (env.completeResp,
     run.2 ++ [UploadEvent.complete fileEntries channel_id thread_ts initial_comment])

/-- Count of presign events in a trace. -/
def countPresign (evs : List UploadEvent) : Nat :=
  (evs.filter (fun e => match e with | .presign _ _ => true | _ => false)).length

/-- Count of raw-POST events in a trace. -/
def countRawPost (evs : List UploadEvent) : Nat :=
  (evs.filter (fun e => match e with | .rawPost _ _ _ _ => true | _ => false)).length

/-- Count of complete events in a trace. -/
def countComplete (evs : List UploadEvent) : Nat :=
  (evs.filter (fun e => match e with | .complete _ _ _ _ => true | _ => false)).length

/-! ## Draft creation (src/lib/slack-client.ts, `createDraft`)

Draft creation is browser-only: a standard credential fails fast before any
network interaction; a browser credential POSTs directly to
`{workspace_url}/api/drafts.create`. -/

/-- The `JSON.stringify`-ed `blocks` form field built by `createDraft`. -/
def draftBlocksJson (text : String) : String :=
  "[\x7b\"type\":\"rich_text\",\"elements\":[\x7b\"type\":\"rich_text_section\"," ++
    "\"elements\":[\x7b\"type\":\"text\",\"text\":" ++ jsonStr text ++
    "\x7d]\x7d]\x7d]"

/-- The `JSON.stringify`-ed `destinations` form field built by
`createDraft`: `thread_ts` and `broadcast` appear only when a thread is
targeted. -/
def draftDestinationsJson (channelId : String) (thread_ts : Option String) : String :=
  match thread_ts with
  | some ts =>
    "[\x7b\"channel_id\":" ++ jsonStr channelId ++ ",\"thread_ts\":" ++ jsonStr ts ++
      ",\"broadcast\":false\x7d]"
  | none => "[\x7b\"channel_id\":" ++ jsonStr channelId ++ "\x7d]"

/-- HTTP-level response fed to `createDraft` by the environment. -/
structure HttpJsonResponse where
  status : Nat
  /-- `response.ok` of the fetch (status 200–299). -/
  httpOk : Bool
  /-- The JSON body's `ok` field. -/
  okField : Bool
  /-- The JSON body's `error` field. -/
  errorField : Option String
deriving DecidableEq

/-- `SlackClient.createDraft` (src/lib/slack-client.ts): fails fast with
"Draft creation requires browser authentication" on a standard credential;
otherwise issues exactly one POST to `{workspace_url}/api/drafts.create`
whose form body carries the xoxc token, a client message id, the rich-text
blocks, the destinations, and composer flags.  Returns the outcome paired
with the trace of issued requests. -/
def createDraft (config : WorkspaceConfig) (channelId text : String)
    (thread_ts : Option String) (clientMsgId : String) (resp : HttpJsonResponse) :
    Except String Unit × List Transport :=
  match config with
  | .standard _ _ _ _ =>
    (.error "Draft creation requires browser authentication", [])
  | .browser _ _ workspace_url xoxd_token xoxc_token =>
    let url := workspace_url ++ "/api/drafts.create"
    let formBody :=
      [("token", xoxc_token),
       ("client_msg_id", clientMsgId),
       ("blocks", draftBlocksJson text),
       ("destinations", draftDestinationsJson channelId thread_ts),
       ("attachments", ""),
       ("file_ids", "[]"),
       ("is_from_composer", "false")]
    let ev := Transport.browserPost url (browserHeaders xoxd_token) formBody
    if !resp.httpOk then
      (.error ("HTTP error! status: " ++ toString resp.status), [ev])
    else if !resp.okField then
      (.error (match resp.errorField with
               | some e => if e = "" then "Unknown API error" else e
               | none => "Unknown API error"), [ev])
    else (.ok (), [ev])

/-! ## cURL token extractor (src/lib/curl-parser.ts)

Each JS regex of `parseCurlCommand` is rendered as a character-list matcher
with the engine's semantics: leftmost match wins, alternatives are tried in
order, greedy pieces backtrack from the longest candidate, lazy pieces grow
from the shortest. -/

/-- The regex class `\w`. -/
def isWordChar (c : Char) : Bool := c.isAlphanum || c = '_'

/-- The regex class `[\w.-]` of the workspace-URL patterns. -/
def isDomainChar (c : Char) : Bool := isWordChar c || c = '.' || c = '-'

/-- The regex class `\s` (JS whitespace). -/
def isJsSpace (c : Char) : Bool :=
  c = ' ' || c = '\t' || c = '\n' || c = '\r' || c.toNat = 0xb || c.toNat = 0xc ||
    c.toNat = 0xa0 || c.toNat = 0x1680 || (0x2000 ≤ c.toNat && c.toNat ≤ 0x200a) ||
    c.toNat = 0x2028 || c.toNat = 0x2029 || c.toNat = 0x202f || c.toNat = 0x205f ||
    c.toNat = 0x3000 || c.toNat = 0xfeff

/-- Line terminators, which the regex `.` does not match. -/
def isLineTerminator (c : Char) : Bool :=
  c = '\n' || c = '\r' || c.toNat = 0x2028 || c.toNat = 0x2029

/-- Consume an exact literal, returning the remainder. -/
def dropLit : List Char → List Char → Option (List Char)
  | [], cs => some cs
  | _ :: _, [] => none
  | l :: ls, c :: cs => if c = l then dropLit ls cs else none

/-- Leftmost-match search: try the position matcher at every index in
order, returning the first success. -/
def scanFor (f : List Char → Option (List Char)) : List Char → Option (List Char)
  | [] => f []
  | c :: rest =>
    match f (c :: rest) with
    | some v => some v
    | none => scanFor f rest

def dotSlackCom : List Char := ".slack.com".data

/-- Greedy split of `([\w.-]+)\.slack\.com`: the engine shrinks the greedy
group from the full domain run until `.slack.com` follows, i.e. it takes
the largest `j ≥ 1` such that `.slack.com` starts at offset `j` of the
run. -/
def greedyDomainSplit (run : List Char) : Nat → Option Nat
  | 0 => none
  | j + 1 =>
    if dotSlackCom.isPrefixOf (run.drop (j + 1)) then some (j + 1)
    else greedyDomainSplit run j

/-- Match `https?:\/\/([\w.-]+)\.slack\.com` at the current position,
returning the captured subdomain group. -/
def matchHttpSlackAt (cs : List Char) : Option (List Char) :=
  let after? := match dropLit "https://".data cs with
                | some r => some r
                | none => dropLit "http://".data cs
  match after? with
  | none => none
  | some after =>
    let run := after.takeWhile isDomainChar
    match greedyDomainSplit run run.length with
    | none => none
    | some j => some (run.take j)

/-- Match `curl\s+'?(https?:\/\/([\w.-]+)\.slack\.com[^'"\s]*)` at the
current position, returning the subdomain group; the trailing
`[^'"\s]*` always succeeds and captures nothing the parser uses. -/
def matchCurlUrlAt (cs : List Char) : Option (List Char) :=
  match dropLit "curl".data cs with
  | none => none
  | some r1 =>
    if (r1.takeWhile isJsSpace).isEmpty then none
    else
      let r2 := r1.dropWhile isJsSpace
      let r3 := match r2 with
                | '\'' :: t => t
                | _ => r2
      matchHttpSlackAt r3

/-- The workspace-URL search of `parseCurlCommand`. -/
def findCurlUrl : List Char → Option (List Char) := scanFor matchCurlUrlAt

/-- The bare workspace-URL search `/https?:\/\/([\w.-]+)\.slack\.com/` of
`authenticateBrowser` (src/lib/auth.ts). -/
def findSlackUrl : List Char → Option (List Char) := scanFor matchHttpSlackAt

/-- Match `q([^q]+)q` at the current position for a quote character `q`:
the greedy capture is the maximal nonempty run of non-quote characters,
and the closing quote must exist. -/
def quotedCapture (q : Char) : List Char → Option (List Char)
  | [] => none
  | c :: rest =>
    if c = q then
      let cap := rest.takeWhile (fun x => !(x = q))
      if cap.isEmpty then none
      else if (rest.dropWhile (fun x => !(x = q))).isEmpty then none
      else some cap
    else none

/-- Match `lit\s+` then a quoted capture. -/
def flagQuotedCapture (lit : List Char) (q : Char) (cs : List Char) : Option (List Char) :=
  match dropLit lit cs with
  | none => none
  | some r1 =>
    if (r1.takeWhile isJsSpace).isEmpty then none
    else quotedCapture q (r1.dropWhile isJsSpace)

/-- Match `\$?` then a quoted capture: a consumed `$` must be followed by
the opening quote (backtracking to the no-`$` branch cannot succeed since
`$` is not the quote). -/
def dollarQuotedCapture (q : Char) : List Char → Option (List Char)
  | '$' :: rest => quotedCapture q rest
  | cs => quotedCapture q cs

/-- Match `lit\s+\$?` then a quoted capture (the data-flag shapes). -/
def flagDataCapture (lit : List Char) (q : Char) (cs : List Char) : Option (List Char) :=
  match dropLit lit cs with
  | none => none
  | some r1 =>
    if (r1.takeWhile isJsSpace).isEmpty then none
    else dollarQuotedCapture q (r1.dropWhile isJsSpace)

/-- Match `-H\s+'[Cc]ookie:\s*([^']+)'` at the current position.  The
greedy `\s*` backtracks one step when the remaining quoted text is all
whitespace, so the capture is the quoted text after its maximal whitespace
prefix, kept nonempty. -/
def cookieHeaderAltAt (cs : List Char) : Option (List Char) :=
  match dropLit "-H".data cs with
  | none => none
  | some r1 =>
    if (r1.takeWhile isJsSpace).isEmpty then none
    else
      match r1.dropWhile isJsSpace with
      | '\'' :: r2 =>
        let r3? := match dropLit "Cookie:".data r2 with
                   | some r => some r
                   | none => dropLit "cookie:".data r2
        match r3? with
        | none => none
        | some r3 =>
          let u := r3.takeWhile (fun x => !(x = '\''))
          if u.isEmpty then none
          else if (r3.dropWhile (fun x => !(x = '\''))).isEmpty then none
          else some (u.drop (min (u.takeWhile isJsSpace).length (u.length - 1)))
      | _ => none

/-- The cookie-flag alternation
`-b\s+'([^']+)'|--cookie\s+'([^']+)'|-H\s+'[Cc]ookie:\s*([^']+)'` at one
position, alternatives in order. -/
def cookieFlagAt (cs : List Char) : Option (List Char) :=
  match flagQuotedCapture "-b".data '\'' cs with
  | some v => some v
  | none =>
    match flagQuotedCapture "--cookie".data '\'' cs with
    | some v => some v
    | none => cookieHeaderAltAt cs

/-- The cookie-flag search of `parseCurlCommand`. -/
def findCookieFlag : List Char → Option (List Char) := scanFor cookieFlagAt

/-- Match `d=(xoxd-[^;]+)` at the current position, returning the capture
(which includes the `xoxd-` prefix). -/
def dAssignCapture (cs : List Char) : Option (List Char) :=
  match dropLit "d=xoxd-".data cs with
  | none => none
  | some rest =>
    let cap := rest.takeWhile (fun x => !(x = ';'))
    if cap.isEmpty then none else some ("xoxd-".data ++ cap)

/-- The `;\s*d=(xoxd-[^;]+)` alternative scanned left to right. -/
def findXoxdGo : List Char → Option (List Char)
  | [] => none
  | c :: rest =>
    if c = ';' then
      match dAssignCapture (rest.dropWhile isJsSpace) with
      | some v => some v
      | none => findXoxdGo rest
    else findXoxdGo rest

/-- The search `/(?:^|;\s*)d=(xoxd-[^;]+)/` over the cookie header: the
`^` alternative at position 0 first, then the `;`-anchored alternative at
every position. -/
def findXoxd (cs : List Char) : Option (List Char) :=
  match dAssignCapture cs with
  | some v => some v
  | none => findXoxdGo cs

/-- The data-flag alternation of `parseCurlCommand` at one position:
`--data-raw\s+\$?'…'`, `--data-raw\s+\$?"…"`, `--data\s+\$?'…'`,
`--data\s+\$?"…"`, in order. -/
def dataFlagAt (cs : List Char) : Option (List Char) :=
  match flagDataCapture "--data-raw".data '\'' cs with
  | some v => some v
  | none =>
    match flagDataCapture "--data-raw".data '"' cs with
    | some v => some v
    | none =>
      match flagDataCapture "--data".data '\'' cs with
      | some v => some v
      | none => flagDataCapture "--data".data '"' cs

/-- The data-flag search of `parseCurlCommand`. -/
def findDataFlag : List Char → Option (List Char) := scanFor dataFlagAt

/-- The regex class `[a-zA-Z0-9-]` of the xoxc token body. -/
def isTokenBodyChar (c : Char) : Bool := c.isAlphanum || c = '-'

/-- Match `xoxc-[a-zA-Z0-9-]+` at the current position. -/
def xoxcCaptureAt (cs : List Char) : Option (List Char) :=
  match dropLit "xoxc-".data cs with
  | none => none
  | some rest =>
    let cap := rest.takeWhile isTokenBodyChar
    if cap.isEmpty then none else some ("xoxc-".data ++ cap)

/-- The lazy gap `.*?` before the xoxc capture: try the capture at the
shortest gap first, growing one non-line-terminator character at a time. -/
def lazyDotScan : List Char → Option (List Char)
  | [] => none
  | c :: rest =>
    match xoxcCaptureAt (c :: rest) with
    | some v => some v
    | none => if isLineTerminator c then none else lazyDotScan rest

/-- Match `name="token".*?(xoxc-[a-zA-Z0-9-]+)` at the current position. -/
def xoxcAt (cs : List Char) : Option (List Char) :=
  match dropLit "name=\"token\"".data cs with
  | none => none
  | some rest => lazyDotScan rest

/-- The xoxc search of `parseCurlCommand` over the captured data content. -/
def findXoxc : List Char → Option (List Char) := scanFor xoxcAt

/-- The closed enum of field tags of `CurlParseError`
(src/lib/curl-parser.ts): `workspace`, `xoxd` (the session cookie token),
`xoxc` (the form API token). -/
inductive CurlField
  | workspace
  | xoxd
  | xoxc
deriving DecidableEq

/-- What `parseCurlCommand` can throw: a field-tagged `CurlParseError`, or
the `URIError` of `decodeURIComponent` on a malformed escape. -/
inductive CurlFailure
  | parseError (field : CurlField) (message : String)
  | uriError
deriving DecidableEq

/-- `ParsedCurlResult` (src/lib/curl-parser.ts). -/
structure ParsedCurlResult where
  workspaceName : String
  workspaceUrl : String
  xoxd : String
  xoxc : String
deriving DecidableEq

/-- `parseCurlCommand` (src/lib/curl-parser.ts): extract the workspace,
the xoxd session token (percent-decoded) and the xoxc form token from a
pasted cURL command; each missing piece raises its own field-tagged
error.  `split('.')[0]` is the prefix before the first dot. -/
def parseCurlCommand (curlInput : String) : Except CurlFailure ParsedCurlResult :=
  match findCurlUrl curlInput.data with
  | none => .error (.parseError .workspace "Could not find Slack workspace URL in cURL command")
  | some sub =>
    let fullSubdomain := String.mk sub
    let workspaceUrl := "https://" ++ fullSubdomain ++ ".slack.com"
    let workspaceName := String.mk (sub.takeWhile (fun c => !(c = '.')))
    let cookieHeader := (findCookieFlag curlInput.data).getD []
    match findXoxd cookieHeader with
    | none => .error (.parseError .xoxd "Could not find xoxd token in cookie header (d=xoxd-...)")
    | some xoxdEncoded =>
      match decodeURIComponent (String.mk xoxdEncoded) with
      | none => .error .uriError
      | some xoxd =>
        let dataContent := (findDataFlag curlInput.data).getD []
        match findXoxc dataContent with
        | none => .error (.parseError .xoxc "Could not find xoxc token in request data")
        | some xoxc =>
          .ok ⟨workspaceName, workspaceUrl, xoxd, String.mk xoxc⟩

/-! ## Channel-name resolution (src/lib/workspaces.ts, `resolveChannel`)

The remote listing is an environment: a sequence of pages, the i-th page
answering the i-th `conversations.list` call.  The function returns its
outcome together with the trace of listing calls it issued. -/

/-- The fields of a listed channel that `resolveChannel` reads. -/
structure SlackChannel where
  id : String
  name : Option String
deriving DecidableEq

/-- One `conversations.list` response: the optional `channels` array and
`response_metadata?.next_cursor`. -/
structure ListPage where
  channels : Option (List SlackChannel)
  next_cursor : Option String
deriving DecidableEq

/-- The parameters of one `conversations.list` call. -/
structure ConvListCall where
  types : String
  limit : Nat
  cursor : Option String
deriving DecidableEq

/-- Outcome of `resolveChannel`; `outOfPages` marks an environment that
stopped answering while the code would have kept paging. -/
inductive ResolveOutcome
  | ok (id : String)
  | notFound (message : String)
  | outOfPages
deriving DecidableEq

/-- The test `/^[CGD][A-Z0-9]+$/i.test(channelOrName)`. -/
def isChannelIdLit (s : String) : Bool :=
  match s.data with
  | [] => false
  | c :: rest =>
    (c = 'C' || c = 'c' || c = 'G' || c = 'g' || c = 'D' || c = 'd') &&
      !rest.isEmpty && rest.all (fun x => x.isAlpha || x.isDigit)

/-- `channelOrName.replace(/^#/, '')`. -/
def stripHash (s : String) : String :=
  match s.data with
  | '#' :: rest => String.mk rest
  | _ => s

/-- The do-while pagination loop of `resolveChannel`: call
`conversations.list` with page size 200, return the first channel of the
page whose `name` strictly equals the searched name, follow
`next_cursor` while truthy, and fail with "Channel not found" when the
cursor is exhausted. -/
def resolveChannelGo (channelName channelOrName : String) :
    List ListPage → Option String → ResolveOutcome × List ConvListCall
  | [], cursor =>
    (.outOfPages, [⟨"public_channel,private_channel", 200, cursor⟩])
  | page :: rest, cursor =>
    let call : ConvListCall := ⟨"public_channel,private_channel", 200, cursor⟩
    match (page.channels.getD []).find? (fun ch => ch.name = some channelName) with
    | some ch => (.ok ch.id, [call])
    | none =>
      if strTruthy page.next_cursor then
        let next := resolveChannelGo channelName channelOrName rest page.next_cursor
        (next.1, call :: next.2)
      else
        (.notFound ("Channel not found: " ++ channelOrName), [call])

/-- `SlackClient.resolveChannel` (src/lib/workspaces.ts): a literal
identifier is returned unchanged with no listing call; otherwise the
leading `#` is stripped and the paginated search runs. -/
def resolveChannel (pages : List ListPage) (channelOrName : String) :
    ResolveOutcome × List ConvListCall :=
  if isChannelIdLit channelOrName then (.ok channelOrName, [])
  else resolveChannelGo (stripHash channelOrName) channelOrName pages none

/-- Modelled from the spec (§4.1 channel-name resolution), for comparison
with the code: scan the pages in order, return the first match's id,
stop when the cursor is exhausted, report "channel not found" on
exhaustion. -/
def specChannelSearch (channelName channelOrName : String) :
    List ListPage → ResolveOutcome
  | [] => .outOfPages
  | page :: rest =>
    match (page.channels.getD []).find? (fun ch => ch.name = some channelName) with
    | some ch => .ok ch.id
    | none =>
      if strTruthy page.next_cursor then specChannelSearch channelName channelOrName rest
      else .notFound ("Channel not found: " ++ channelOrName)

/-! ## Auth orchestrator (src/lib/auth.ts)

`authenticateStandard` / `authenticateBrowser` build a provisional
credential with the placeholder workspace id `temp`, probe `auth.test`
through a client bound to it, and persist via `addWorkspace` only on
success, with the placeholder overwritten by the probe's `team_id`.  The
probe outcome is an environment parameter; each function returns its
result paired with the store state after the call. -/

/-- The `auth.test` response fields the orchestrator reads. -/
structure SlackAuthTestResponse where
  team : String
  team_id : String
deriving DecidableEq

/-- `authenticateStandard` (src/lib/auth.ts).  `token_type` is derived
from the token prefix; `workspaceName || authTest.team` is a JS
truthiness choice. -/
def authenticateStandard (store : WorkspacesData)
    (probe : Except String SlackAuthTestResponse)
    (token workspaceName : String) :
    Except String WorkspaceConfig × WorkspacesData :=
  let token_type := if token.startsWith "xoxb-" then TokenType.bot else TokenType.user
  match probe with
  | .error msg => (.error ("Authentication failed: " ++ msg), store)
  | .ok authTest =>
    let config : WorkspaceConfig :=
      .standard authTest.team_id
        (if workspaceName = "" then authTest.team else workspaceName)
        token token_type
    (.ok config, addWorkspace store config)

/-- `authenticateBrowser` (src/lib/auth.ts).  The fallback display name is
the first dot-separated label of the workspace URL's slack subdomain (or
"workspace" when the URL does not match); it is only used in the
provisional credential, the persisted name being
`workspaceName || authTest.team`. -/
def authenticateBrowser (store : WorkspacesData)
    (probe : Except String SlackAuthTestResponse)
    (xoxdToken xoxcToken workspaceUrl : String) (workspaceName : Option String) :
    Except String WorkspaceConfig × WorkspacesData :=
  let defaultName := match findSlackUrl workspaceUrl.data with
                     | some sub => String.mk (sub.takeWhile (fun c => !(c = '.')))
                     | none => "workspace"
  let tempName := match workspaceName with
                  | some n => if n = "" then defaultName else n
                  | none => defaultName
  let _tempConfig : WorkspaceConfig :=
    .browser "temp" tempName workspaceUrl xoxdToken xoxcToken
  match probe with
  | .error msg => (.error ("Authentication failed: " ++ msg), store)
  | .ok authTest =>
    let finalName := match workspaceName with
                     | some n => if n = "" then authTest.team else n
                     | none => authTest.team
    let config : WorkspaceConfig :=
      .browser authTest.team_id finalName workspaceUrl xoxdToken xoxcToken
    (.ok config, addWorkspace store config)

/-! ## Statement vocabulary: decidability, expected upload traces, and the
concrete sample inputs of the testable properties -/

instance {ε α : Type} [DecidableEq ε] [DecidableEq α] : DecidableEq (Except ε α) :=
  fun a b =>
    match a, b with
    | .ok x, .ok y =>
      if h : x = y then .isTrue (by rw [h]) else .isFalse (fun hc => by cases hc; exact h rfl)
    | .error x, .error y =>
      if h : x = y then .isTrue (by rw [h]) else .isFalse (fun hc => by cases hc; exact h rfl)
    | .ok _, .error _ => .isFalse (fun hc => by cases hc)
    | .error _, .ok _ => .isFalse (fun hc => by cases hc)

/-- `options.titles?.[i]` with the truthiness test of `uploadFiles`. -/
def titleAt (titles : List String) (i : Nat) : Option String :=
  match titles.get? i with
  | some t => if t = "" then none else some t
  | none => none

/-- The per-file event trace a fully successful `uploadFiles` run issues:
for the j-th file one presign call carrying its basename and exact byte
length as a string, then one raw unauthenticated POST of its bytes to the
returned presigned URL. -/
def expectedUploadEvents (env : UploadEnv) (resp : Nat → FileUploadUrlResponse)
    : List String → Nat → List UploadEvent
  | [], _ => []
  | p :: rest, i =>
    UploadEvent.presign (jsBasename p) (toString (env.fileBytes p).length) ::
      UploadEvent.rawPost (resp i).upload_url (env.fileBytes p) (jsBasename p) [] ::
      expectedUploadEvents env resp rest (i + 1)

/-- The `files` entries a fully successful `uploadFiles` run bundles into
its single complete call: one returned file id per file, with the optional
title. -/
def expectedEntries (resp : Nat → FileUploadUrlResponse) (titles : List String)
    : List String → Nat → List FileEntry
  | [], _ => []
  | _ :: rest, i =>
    (⟨(resp i).file_id, titleAt titles i⟩ : FileEntry) :: expectedEntries resp titles rest (i + 1)

/-- The §8 scenario input (single-quoted cookie flag, `$'…'` ANSI-C-quoted
data flag; the `\r\n` are the literal backslash escapes as pasted). -/
def sampleCurlInput : String :=
  "curl 'https://acme.slack.com/api/x' -b 'd=xoxd-AAA-111' --data-raw $'...name=\"token\"\\r\\n\\r\\nxoxc-BBB-222...'"

/-- The expected extraction of `sampleCurlInput`. -/
def sampleCurlResult : ParsedCurlResult :=
  ⟨"acme", "https://acme.slack.com", "xoxd-AAA-111", "xoxc-BBB-222"⟩

/-- `sampleCurlInput` with the workspace URL removed. -/
def sampleNoUrl : String :=
  "curl -b 'd=xoxd-AAA-111' --data-raw $'...name=\"token\"\\r\\n\\r\\nxoxc-BBB-222...'"

/-- `sampleCurlInput` with the cookie flag removed. -/
def sampleNoCookie : String :=
  "curl 'https://acme.slack.com/api/x' --data-raw $'...name=\"token\"\\r\\n\\r\\nxoxc-BBB-222...'"

/-- `sampleCurlInput` with the token-bearing request body removed. -/
def sampleNoData : String :=
  "curl 'https://acme.slack.com/api/x' -b 'd=xoxd-AAA-111'"

/-- The sample logical request with the cookie flag rendered in double
quotes instead of single quotes. -/
def sampleDoubleQuotedCookie : String :=
  "curl 'https://acme.slack.com/api/x' -b \"d=xoxd-AAA-111\" --data-raw $'...name=\"token\"\\r\\n\\r\\nxoxc-BBB-222...'"

/-- The sample logical request with the data flag rendered in double
quotes (the inner double quotes of the body escaped as a shell would). -/
def sampleDoubleQuotedData : String :=
  "curl 'https://acme.slack.com/api/x' -b 'd=xoxd-AAA-111' --data-raw \"...name=\\\"token\\\"\\r\\n\\r\\nxoxc-BBB-222...\""

/-- The sample request with the data flag as `--data-raw '…'` (single
quotes, no `$`). -/
def sampleDataRawPlain : String :=
  "curl 'https://acme.slack.com/api/x' -b 'd=xoxd-AAA-111' --data-raw '...name=\"token\"\\r\\n\\r\\nxoxc-BBB-222...'"

/-- The sample request with the data flag as `--data $'…'`. -/
def sampleDataDollar : String :=
  "curl 'https://acme.slack.com/api/x' -b 'd=xoxd-AAA-111' --data $'...name=\"token\"\\r\\n\\r\\nxoxc-BBB-222...'"

/-- The sample request with the data flag as `--data '…'`. -/
def sampleDataPlain : String :=
  "curl 'https://acme.slack.com/api/x' -b 'd=xoxd-AAA-111' --data '...name=\"token\"\\r\\n\\r\\nxoxc-BBB-222...'"

/-- A concrete standard credential with workspace id `A`, used by the
store counterexample. -/
def cfgA : WorkspaceConfig := .standard "A" "Alpha" "xoxb-1" .bot

/-- A second concrete credential with the same workspace id `A`. -/
def cfgA2 : WorkspaceConfig := .standard "A" "AlphaRenamed" "xoxp-2" .user

/-- A concrete credential with workspace id `B`. -/
def cfgB : WorkspaceConfig := .standard "B" "Beta" "xoxb-3" .bot

/-- Concrete upload environment for the C2 witness. -/
def witnessUploadEnv : UploadEnv where
  fileBytes := fun p => if p = "docs/a.txt" then [104, 105] else [1, 2, 3]
  presignResp := fun i => .ok ⟨"https://up.example/" ++ toString i, "F0" ++ toString i⟩
  postStatus := fun _ => 200
  completeResp := .ok []

/-- The presign responses of `witnessUploadEnv` as a plain function. -/
def witnessResp : Nat → FileUploadUrlResponse :=
  fun i => ⟨"https://up.example/" ++ toString i, "F0" ++ toString i⟩

/-!
# Theorems
-/

/-! ### Association-list lemmas for the JS object model -/

theorem objGet_cons (a : String × α) (m : List (String × α)) (k : String) :
    objGet (a :: m) k = if a.1 = k then some a.2 else objGet m k := by
  by_cases h : a.1 = k <;> simp [objGet, List.find?_cons, h]

theorem objGet_isSome_any (m : List (String × α)) (k : String) :
    (objGet m k).isSome = m.any (fun p => p.1 = k) := by
  induction m with
  | nil => rfl
  | cons a m ih => by_cases h : a.1 = k <;> simp [objGet_cons, h, ih]

theorem objGet_map_update_other (m : List (String × α)) (k : String) (v : α)
    (kq : String) (h : ¬ kq = k) :
    objGet (m.map (fun p => if p.1 = k then (k, v) else p)) kq = objGet m kq := by
  induction m with
  | nil => rfl
  | cons a m ih =>
    have hk : ¬ k = kq := fun hh => h hh.symm
    by_cases ha : a.1 = k
    · have haq : ¬ a.1 = kq := fun hh => h (ha ▸ hh).symm
      simp only [List.map_cons, if_pos ha, objGet_cons, if_neg hk, if_neg haq, ih]
    · simp only [List.map_cons]
      rw [if_neg ha, objGet_cons, objGet_cons]
      by_cases haq : a.1 = kq
      · rw [if_pos haq, if_pos haq]
      · rw [if_neg haq, if_neg haq, ih]

theorem objGet_map_update_self (m : List (String × α)) (k : String) (v : α)
    (h : (objGet m k).isSome = true) :
    objGet (m.map (fun p => if p.1 = k then (k, v) else p)) k = some v := by
  induction m with
  | nil => simp [objGet] at h
  | cons a m ih =>
    by_cases ha : a.1 = k
    · simp [objGet_cons, ha]
    · rw [objGet_cons, if_neg ha] at h
      simp [objGet_cons, ha, ih h]

theorem objGet_append_single_self (m : List (String × α)) (k : String) (v : α)
    (h : objGet m k = none) :
    objGet (m ++ [(k, v)]) k = some v := by
  induction m with
  | nil => simp [objGet, List.find?_cons]
  | cons a m ih =>
    rw [objGet_cons] at h
    by_cases ha : a.1 = k
    · rw [if_pos ha] at h; cases h
    · rw [if_neg ha] at h
      simp [objGet_cons, ha, ih h]

theorem objGet_append_single_other (m : List (String × α)) (k : String) (v : α)
    (kq : String) (h : ¬ kq = k) :
    objGet (m ++ [(k, v)]) kq = objGet m kq := by
  have hk : ¬ k = kq := fun hh => h hh.symm
  induction m with
  | nil => simp [objGet, List.find?_cons, hk]
  | cons a m ih =>
    by_cases ha : a.1 = kq <;> simp [objGet_cons, ha, ih]

theorem objKeys_map_update (m : List (String × α)) (k : String) (v : α) :
    objKeys (m.map (fun p => if p.1 = k then (k, v) else p)) = objKeys m := by
  simp only [objKeys, List.map_map]
  apply List.map_congr_left
  intro p _
  by_cases hp : p.1 = k <;> simp [hp]

theorem objSet_get_self (m : List (String × α)) (k : String) (v : α) :
    objGet (objSet m k v) k = some v := by
  unfold objSet
  by_cases h : m.any (fun p => p.1 = k) = true
  · rw [if_pos h]
    exact objGet_map_update_self m k v (by rw [objGet_isSome_any]; exact h)
  · rw [if_neg h]
    apply objGet_append_single_self
    have : (objGet m k).isSome = false := by
      rw [objGet_isSome_any]; exact Bool.not_eq_true _ ▸ (by simpa using h)
    exact Option.not_isSome_iff_eq_none.mp (by simp [this])

theorem objSet_get_other (m : List (String × α)) (k : String) (v : α)
    (kq : String) (h : ¬ kq = k) :
    objGet (objSet m k v) kq = objGet m kq := by
  unfold objSet
  by_cases ha : m.any (fun p => p.1 = k) = true
  · rw [if_pos ha]; exact objGet_map_update_other m k v kq h
  · rw [if_neg ha]; exact objGet_append_single_other m k v kq h

theorem objSet_keys_of_mem (m : List (String × α)) (k : String) (v : α)
    (h : m.any (fun p => p.1 = k) = true) :
    objKeys (objSet m k v) = objKeys m := by
  unfold objSet
  rw [if_pos h]
  exact objKeys_map_update m k v

/-! ### Claim theorems -/

/-- C1: every API operation funnels through `SlackClient.request`; a
standard-variant credential is routed to the bearer-token SDK transport,
which constructs no `Cookie` header and no POST to the
`{workspace_url}/api/{method}` browser path, while a browser-variant
credential is routed to the browser POST (to exactly that path, with the
cookie headers and the xoxc form body) and never to the SDK transport. -/
theorem C1_dispatch_routing (method : String) (params : List (String × String)) :
    (∀ wid wname token tt,
        SlackClient.request (.standard wid wname token tt) method params =
          Transport.sdkCall token method params ∧
        (SlackClient.request (.standard wid wname token tt) method params).hasCookieHeader
          = false ∧
        (SlackClient.request (.standard wid wname token tt) method params).isBrowserPost
          = false) ∧
    (∀ wid wname wurl xoxd xoxc,
        SlackClient.request (.browser wid wname wurl xoxd xoxc) method params =
          Transport.browserPost (wurl ++ "/api/" ++ method) (browserHeaders xoxd)
            (browserBody xoxc params) ∧
        (SlackClient.request (.browser wid wname wurl xoxd xoxc) method params).isSdkCall
          = false) := by
  constructor
  · intro wid wname token tt
    exact ⟨rfl, rfl, rfl⟩
  · intro wid wname wurl xoxd xoxc
    exact ⟨rfl, rfl⟩

/-- C6: adding the first-ever credential to an empty store promotes it to
default; adding while a (truthy) default is recorded leaves the default
unchanged; removing the workspace that is the current default re-points
the default to the first remaining key (`List.head?` of the remaining
keys), clearing it exactly when the mapping becomes empty. -/
theorem C6_default_lifecycle :
    (∀ c : WorkspaceConfig,
        (addWorkspace ⟨none, []⟩ c).default_workspace = some c.workspace_id) ∧
    (∀ (data : WorkspacesData) (c : WorkspaceConfig) (d : String),
        data.default_workspace = some d → ¬ d = "" →
        (addWorkspace data c).default_workspace = some d) ∧
    (∀ (data : WorkspacesData) (wid : String),
        data.default_workspace = some wid →
        (objGet data.workspaces wid).isSome = true →
        removeWorkspace data wid =
          .ok ⟨(objKeys (objDelete data.workspaces wid)).head?,
               objDelete data.workspaces wid⟩) := by
  refine ⟨fun c => rfl, ?_, ?_⟩
  · intro data c d hd hne
    unfold addWorkspace
    simp [hd, strTruthy, hne]
  · intro data wid hd hsome
    unfold removeWorkspace
    have hnone : (objGet data.workspaces wid).isNone = false := by
      cases hobj : objGet data.workspaces wid
      · rw [hobj] at hsome; cases hsome
      · rfl
    rw [hnone]
    simp only [Bool.false_eq_true, if_false, hd, if_pos]
    cases objKeys (objDelete data.workspaces wid) <;> rfl

/-- Witness for C6 at concrete store states. -/
theorem C6_default_lifecycle_witness :
    (addWorkspace ⟨none, []⟩ cfgA).default_workspace = some cfgA.workspace_id ∧
    (addWorkspace ⟨some "A", [("A", cfgA)]⟩ cfgB).default_workspace = some "A" ∧
    removeWorkspace ⟨some "A", [("A", cfgA), ("B", cfgB)]⟩ "A" =
      .ok ⟨(objKeys (objDelete [("A", cfgA), ("B", cfgB)] "A")).head?,
           objDelete [("A", cfgA), ("B", cfgB)] "A"⟩ :=
  ⟨C6_default_lifecycle.1 cfgA,
   C6_default_lifecycle.2.1 ⟨some "A", [("A", cfgA)]⟩ cfgB "A" rfl (by decide),
   C6_default_lifecycle.2.2 ⟨some "A", [("A", cfgA), ("B", cfgB)]⟩ "A" rfl (by decide)⟩

/-- C7: for both credential variants the auth orchestrator persists (via
`addWorkspace`) only after a successful probe, the persisted credential
carrying the probe's `team_id` in place of the provisional placeholder;
on a failed probe it surfaces an "Authentication failed" error and
returns the store unchanged. -/
theorem C7_verify_before_persist :
    (∀ (store : WorkspacesData) (msg token name : String),
        authenticateStandard store (.error msg) token name =
          (.error ("Authentication failed: " ++ msg), store)) ∧
    (∀ (store : WorkspacesData) (r : SlackAuthTestResponse) (token name : String),
        ∃ config : WorkspaceConfig,
          authenticateStandard store (.ok r) token name =
            (.ok config, addWorkspace store config) ∧
          config.workspace_id = r.team_id) ∧
    (∀ (store : WorkspacesData) (msg xoxd xoxc url : String) (name : Option String),
        authenticateBrowser store (.error msg) xoxd xoxc url name =
          (.error ("Authentication failed: " ++ msg), store)) ∧
    (∀ (store : WorkspacesData) (r : SlackAuthTestResponse) (xoxd xoxc url : String)
        (name : Option String),
        ∃ config : WorkspaceConfig,
          authenticateBrowser store (.ok r) xoxd xoxc url name =
            (.ok config, addWorkspace store config) ∧
          config.workspace_id = r.team_id) := by
  refine ⟨fun store msg token name => rfl, ?_, fun store msg xoxd xoxc url name => rfl, ?_⟩
  · intro store r token name
    exact ⟨_, rfl, rfl⟩
  · intro store r xoxd xoxc url name
    exact ⟨_, rfl, rfl⟩

/-- C8: draft creation on a standard-variant credential fails immediately
with the "requires browser authentication" error and an empty request
trace; on a browser-variant credential it issues exactly one POST, to
`{workspace_url}/api/drafts.create`. -/
theorem C8_draft_browser_only (channelId text : String) (tts : Option String)
    (cmid : String) (resp : HttpJsonResponse) :
    (∀ wid wname token tt,
        createDraft (.standard wid wname token tt) channelId text tts cmid resp =
          (.error "Draft creation requires browser authentication", [])) ∧
    (∀ wid wname wurl xoxd xoxc,
        (createDraft (.browser wid wname wurl xoxd xoxc) channelId text tts cmid resp).2 =
          [Transport.browserPost (wurl ++ "/api/drafts.create") (browserHeaders xoxd)
            [("token", xoxc), ("client_msg_id", cmid), ("blocks", draftBlocksJson text),
             ("destinations", draftDestinationsJson channelId tts),
             ("attachments", ""), ("file_ids", "[]"), ("is_from_composer", "false")]]) := by
  constructor
  · intro _ _ _ _
    rfl
  · intro wid wname wurl xoxd xoxc
    unfold createDraft
    cases hh : resp.httpOk <;> cases ho : resp.okField <;> simp [hh, ho]

/-- C10 counterexample: with no recorded default and an existing key, add
with that key changes the `default_workspace` pointer (from `none` to the
credential's id), so the pointer is not unchanged for every store state. -/
theorem C10_counterexample :
    (objGet (⟨none, [("A", cfgA)]⟩ : WorkspacesData).workspaces
        cfgA2.workspace_id).isSome = true ∧
    (⟨none, [("A", cfgA)]⟩ : WorkspacesData).default_workspace = none ∧
    (addWorkspace ⟨none, [("A", cfgA)]⟩ cfgA2).default_workspace = some "A" ∧
    decide ((addWorkspace ⟨none, [("A", cfgA)]⟩ cfgA2).default_workspace =
        (⟨none, [("A", cfgA)]⟩ : WorkspacesData).default_workspace) = false := by
  decide

/-- C10 (amended): when the credential's workspace id is already a key,
add replaces exactly that entry — every other entry, the key sequence,
and, provided a default is recorded (truthy), the `default_workspace`
pointer are unchanged; with no recorded default, add additionally points
the default at the overwritten credential's id. -/
theorem C10_overwrite_frame (data : WorkspacesData) (c : WorkspaceConfig)
    (hkey : (objGet data.workspaces c.workspace_id).isSome = true) :
    objGet (addWorkspace data c).workspaces c.workspace_id = some c ∧
    (∀ k, ¬ k = c.workspace_id →
        objGet (addWorkspace data c).workspaces k = objGet data.workspaces k) ∧
    objKeys (addWorkspace data c).workspaces = objKeys data.workspaces ∧
    (strTruthy data.default_workspace = true →
        (addWorkspace data c).default_workspace = data.default_workspace) := by
  refine ⟨objSet_get_self _ _ _, fun k hk => objSet_get_other _ _ _ _ hk, ?_, ?_⟩
  · exact objSet_keys_of_mem _ _ _ (by rw [← objGet_isSome_any]; exact hkey)
  · intro ht
    unfold addWorkspace
    simp [ht]

/-- Witness for the amended C10 at a concrete two-entry store. -/
theorem C10_overwrite_frame_witness :
    objGet (addWorkspace ⟨some "B", [("A", cfgA), ("B", cfgB)]⟩ cfgA2).workspaces
        cfgA2.workspace_id = some cfgA2 ∧
    objGet (addWorkspace ⟨some "B", [("A", cfgA), ("B", cfgB)]⟩ cfgA2).workspaces "B" =
      objGet [("A", cfgA), ("B", cfgB)] "B" ∧
    objKeys (addWorkspace ⟨some "B", [("A", cfgA), ("B", cfgB)]⟩ cfgA2).workspaces =
      objKeys [("A", cfgA), ("B", cfgB)] ∧
    (addWorkspace ⟨some "B", [("A", cfgA), ("B", cfgB)]⟩ cfgA2).default_workspace =
      some "B" :=
  have h := C10_overwrite_frame ⟨some "B", [("A", cfgA), ("B", cfgB)]⟩ cfgA2 (by decide)
  ⟨h.1, h.2.1 "B" (by decide), h.2.2.1, h.2.2.2 (by decide)⟩

theorem resolveChannelGo_calls (n o : String) (pages : List ListPage) :
    ∀ (cursor : Option String),
      ∀ call ∈ (resolveChannelGo n o pages cursor).2,
        call.types = "public_channel,private_channel" ∧ call.limit = 200 := by
  induction pages with
  | nil =>
    intro cursor call hc
    simp only [resolveChannelGo, List.mem_singleton] at hc
    subst hc
    exact ⟨rfl, rfl⟩
  | cons page rest ih =>
    intro cursor call hc
    unfold resolveChannelGo at hc
    cases hfind : (page.channels.getD []).find? (fun ch => ch.name = some n) with
    | some ch =>
      simp only [hfind, List.mem_singleton] at hc
      subst hc
      exact ⟨rfl, rfl⟩
    | none =>
      by_cases ht : strTruthy page.next_cursor = true
      · simp only [hfind, ht, if_true, List.mem_cons] at hc
        cases hc with
        | inl hc => subst hc; exact ⟨rfl, rfl⟩
        | inr hc => exact ih page.next_cursor call hc
      · rw [Bool.not_eq_true] at ht
        simp only [hfind, ht, Bool.false_eq_true, if_false, List.mem_singleton] at hc
        subst hc
        exact ⟨rfl, rfl⟩

theorem resolveChannelGo_outcome (n o : String) (pages : List ListPage) :
    ∀ (cursor : Option String),
      (resolveChannelGo n o pages cursor).1 = specChannelSearch n o pages := by
  induction pages with
  | nil => intro cursor; rfl
  | cons page rest ih =>
    intro cursor
    unfold resolveChannelGo specChannelSearch
    cases hfind : (page.channels.getD []).find? (fun ch => ch.name = some n) with
    | some ch => simp only [hfind]
    | none =>
      by_cases ht : strTruthy page.next_cursor = true
      · simp only [hfind, ht, if_true]
        exact ih page.next_cursor
      · rw [Bool.not_eq_true] at ht
        simp only [hfind, ht, Bool.false_eq_true, if_false]

/-- C5: a literal channel identifier (the `/^[CGD][A-Z0-9]+$/i` pattern)
is returned unchanged with an empty listing trace; any other input has
its leading `#` stripped, every issued `conversations.list` call uses
page size 200 (and the public/private channel types), and the outcome is
the first case-sensitive name match's id across the cursor-paged
listing, or the "Channel not found" failure when the cursor is exhausted
— as captured by the spec-level paged search `specChannelSearch`. -/
theorem C5_channel_resolution (pages : List ListPage) (s : String) :
    (isChannelIdLit s = true → resolveChannel pages s = (.ok s, [])) ∧
    (isChannelIdLit s = false →
      (∀ call ∈ (resolveChannel pages s).2,
          call.types = "public_channel,private_channel" ∧ call.limit = 200) ∧
      (resolveChannel pages s).1 = specChannelSearch (stripHash s) s pages) := by
  constructor
  · intro h
    simp [resolveChannel, h]
  · intro h
    refine ⟨?_, ?_⟩
    · intro call hc
      rw [resolveChannel, if_neg (by simp [h])] at hc
      exact resolveChannelGo_calls (stripHash s) s pages none call hc
    · rw [resolveChannel, if_neg (by simp [h])]
      exact resolveChannelGo_outcome (stripHash s) s pages none

/-- Witness for C5: a literal id short-circuits with no calls; a
`#`-prefixed name is resolved through the paged listing. -/
theorem C5_channel_resolution_witness :
    (resolveChannel [] "C042AB" = (.ok "C042AB", []) ∧
      isChannelIdLit "C042AB" = true) ∧
    (isChannelIdLit "#general" = false ∧
      (resolveChannel [⟨some [⟨"C9", some "general"⟩], none⟩] "#general").1 =
        specChannelSearch (stripHash "#general") "#general"
          [⟨some [⟨"C9", some "general"⟩], none⟩]) :=
  ⟨⟨(C5_channel_resolution [] "C042AB").1 (by decide), by decide⟩,
   ⟨by decide,
    ((C5_channel_resolution [⟨some [⟨"C9", some "general"⟩], none⟩] "#general").2
      (by decide)).2⟩⟩

theorem uploadFilesGo_success (env : UploadEnv) (resp : Nat → FileUploadUrlResponse)
    (titles : List String) (paths : List String) :
    ∀ i : Nat,
      (∀ j, j < paths.length → env.presignResp (i + j) = .ok (resp (i + j))) →
      (∀ j, j < paths.length → 200 ≤ env.postStatus (i + j) ∧ env.postStatus (i + j) < 300) →
      uploadFilesGo env titles paths i =
        (.ok (expectedEntries resp titles paths i),
         expectedUploadEvents env resp paths i) := by
  induction paths with
  | nil => intro i _ _; rfl
  | cons p rest ih =>
    intro i hpre hpost
    have h0 : env.presignResp i = .ok (resp i) := by
      have := hpre 0 (by simp)
      rwa [Nat.add_zero] at this
    have hs0 : 200 ≤ env.postStatus i ∧ env.postStatus i < 300 := by
      have := hpost 0 (by simp)
      rwa [Nat.add_zero] at this
    have hrest := ih (i + 1)
      (fun j hj => by
        have := hpre (j + 1) (by simpa using Nat.succ_lt_succ hj)
        rwa [show i + (j + 1) = i + 1 + j by omega] at this)
      (fun j hj => by
        have := hpost (j + 1) (by simpa using Nat.succ_lt_succ hj)
        rwa [show i + (j + 1) = i + 1 + j by omega] at this)
    have hcond : (200 ≤ env.postStatus i && env.postStatus i < 300) = true := by
      simp [hs0.1, hs0.2]
    unfold uploadFilesGo
    simp only [h0, hcond, if_true, hrest, expectedEntries, expectedUploadEvents,
      Except.map]
    rfl

theorem countPresign_append (a b : List UploadEvent) :
    countPresign (a ++ b) = countPresign a + countPresign b := by
  simp [countPresign]

theorem countRawPost_append (a b : List UploadEvent) :
    countRawPost (a ++ b) = countRawPost a + countRawPost b := by
  simp [countRawPost]

theorem countComplete_append (a b : List UploadEvent) :
    countComplete (a ++ b) = countComplete a + countComplete b := by
  simp [countComplete]

theorem expectedUploadEvents_counts (env : UploadEnv) (resp : Nat → FileUploadUrlResponse)
    (paths : List String) :
    ∀ i : Nat,
      countPresign (expectedUploadEvents env resp paths i) = paths.length ∧
      countRawPost (expectedUploadEvents env resp paths i) = paths.length ∧
      countComplete (expectedUploadEvents env resp paths i) = 0 := by
  induction paths with
  | nil => intro i; exact ⟨rfl, rfl, rfl⟩
  | cons p rest ih =>
    intro i
    obtain ⟨h1, h2, h3⟩ := ih (i + 1)
    refine ⟨?_, ?_, ?_⟩
    · simp only [expectedUploadEvents, countPresign, List.filter_cons] at h1 ⊢
      simp_all
    · simp only [expectedUploadEvents, countRawPost, List.filter_cons] at h2 ⊢
      simp_all
    · simp only [expectedUploadEvents, countComplete, List.filter_cons] at h3 ⊢
      simp_all

theorem expectedEntries_length (resp : Nat → FileUploadUrlResponse)
    (titles : List String) (paths : List String) :
    ∀ i : Nat, (expectedEntries resp titles paths i).length = paths.length := by
  induction paths with
  | nil => intro i; rfl
  | cons p rest ih => intro i; simp [expectedEntries, ih (i + 1)]

/-- C2: with every step answered successfully, `uploadFiles` on N ≥ 1 file
paths issues exactly N `files.getUploadURLExternal` presign calls (each
carrying the file's basename and exact byte length as a string), exactly N
raw unauthenticated POSTs of the file bytes to the returned presigned
URLs, and — after all files — exactly one `files.completeUploadExternal`
call bundling all N returned file ids with their optional titles plus the
target channel/thread/comment, as spelled out by the expected trace. -/
theorem C2_upload_protocol (env : UploadEnv) (resp : Nat → FileUploadUrlResponse)
    (titles : List String) (paths : List String)
    (cid tts ic : Option String)
    (_hne : ¬ paths = [])
    (hpre : ∀ j, j < paths.length → env.presignResp j = .ok (resp j))
    (hpost : ∀ j, j < paths.length → 200 ≤ env.postStatus j ∧ env.postStatus j < 300) :
    (uploadFiles env paths titles cid tts ic).2 =
      expectedUploadEvents env resp paths 0 ++
        [UploadEvent.complete (expectedEntries resp titles paths 0) cid tts ic] ∧
    countPresign ((uploadFiles env paths titles cid tts ic).2) = paths.length ∧
    countRawPost ((uploadFiles env paths titles cid tts ic).2) = paths.length ∧
    countComplete ((uploadFiles env paths titles cid tts ic).2) = 1 ∧
    (expectedEntries resp titles paths 0).length = paths.length := by
  have hgo := uploadFilesGo_success env resp titles paths 0
    (fun j hj => by simpa using hpre j hj)
    (fun j hj => by simpa using hpost j hj)
  have htrace : (uploadFiles env paths titles cid tts ic).2 =
      expectedUploadEvents env resp paths 0 ++
        [UploadEvent.complete (expectedEntries resp titles paths 0) cid tts ic] := by
    unfold uploadFiles
    simp only [hgo]
  have hcounts := expectedUploadEvents_counts env resp paths 0
  refine ⟨htrace, ?_, ?_, ?_, expectedEntries_length resp titles paths 0⟩
  · rw [htrace, countPresign_append, hcounts.1]
    simp [countPresign]
  · rw [htrace, countRawPost_append, hcounts.2.1]
    simp [countRawPost]
  · rw [htrace, countComplete_append, hcounts.2.2]
    simp [countComplete]

/-- Witness for C2: two concrete files, one with a title, uploaded to a
concrete channel through the concrete environment. -/
theorem C2_upload_protocol_witness :
    (uploadFiles witnessUploadEnv ["docs/a.txt", "b.bin"] ["Title", ""]
        (some "C1") none none).2 =
      expectedUploadEvents witnessUploadEnv witnessResp ["docs/a.txt", "b.bin"] 0 ++
        [UploadEvent.complete
          (expectedEntries witnessResp ["Title", ""] ["docs/a.txt", "b.bin"] 0)
          (some "C1") none none] ∧
    countPresign ((uploadFiles witnessUploadEnv ["docs/a.txt", "b.bin"] ["Title", ""]
        (some "C1") none none).2) = 2 ∧
    countRawPost ((uploadFiles witnessUploadEnv ["docs/a.txt", "b.bin"] ["Title", ""]
        (some "C1") none none).2) = 2 ∧
    countComplete ((uploadFiles witnessUploadEnv ["docs/a.txt", "b.bin"] ["Title", ""]
        (some "C1") none none).2) = 1 ∧
    (expectedEntries witnessResp ["Title", ""] ["docs/a.txt", "b.bin"] 0).length = 2 :=
  C2_upload_protocol witnessUploadEnv witnessResp ["Title", ""] ["docs/a.txt", "b.bin"]
    (some "C1") none none (by decide) (by decide) (by decide)

set_option maxRecDepth 100000 in
/-- C3: on the §8 scenario input (with the `\r\n` as literal backslash
escapes), `parseCurlCommand` succeeds and extracts exactly the workspace
name `acme`, the origin `https://acme.slack.com`, the cookie session
token `xoxd-AAA-111` and the form token `xoxc-BBB-222`. -/
theorem C3_sample_extraction :
    parseCurlCommand sampleCurlInput = .ok sampleCurlResult := by
  decide

set_option maxRecDepth 100000 in
/-- C4: on the otherwise-valid sample input, removing the workspace URL
yields the workspace-tagged failure, removing the cookie flag yields the
xoxd-tagged (session token) failure, and removing the token-bearing body
yields the xoxc-tagged (form token) failure — each a distinct,
field-tagged error value, while the full sample still parses. -/
theorem C4_field_tagged_failures :
    parseCurlCommand sampleCurlInput = .ok sampleCurlResult ∧
    parseCurlCommand sampleNoUrl =
      .error (.parseError .workspace "Could not find Slack workspace URL in cURL command") ∧
    parseCurlCommand sampleNoCookie =
      .error (.parseError .xoxd "Could not find xoxd token in cookie header (d=xoxd-...)") ∧
    parseCurlCommand sampleNoData =
      .error (.parseError .xoxc "Could not find xoxc token in request data") := by
  refine ⟨by decide, by decide, by decide, by decide⟩

set_option maxRecDepth 100000 in
/-- C9 counterexample: the same logical request rendered with a
double-quoted cookie flag (or a double-quoted data flag) does not extract
the same result as the single-quoted rendering — the cookie regex accepts
only single quotes, and a double-quoted data value cannot reach past the
inner quotes of `name="token"` — so quote-style invariance fails. -/
theorem C9_counterexample :
    parseCurlCommand sampleCurlInput = .ok sampleCurlResult ∧
    parseCurlCommand sampleDoubleQuotedCookie =
      .error (.parseError .xoxd "Could not find xoxd token in cookie header (d=xoxd-...)") ∧
    parseCurlCommand sampleDoubleQuotedData =
      .error (.parseError .xoxc "Could not find xoxc token in request data") ∧
    decide (parseCurlCommand sampleDoubleQuotedCookie = parseCurlCommand sampleCurlInput)
      = false ∧
    decide (parseCurlCommand sampleDoubleQuotedData = parseCurlCommand sampleCurlInput)
      = false := by
  refine ⟨by decide, by decide, by decide, by decide, by decide⟩

set_option maxRecDepth 100000 in
/-- C9 (amended): quote-style invariance holds across the four recognized
data-flag renderings — `--data-raw` or `--data`, with or without the `$`
ANSI-C prefix, single-quoted — which all extract the identical result on
the sample logical request; it does not extend to double-quoted
renderings of the cookie or data flag. -/
theorem C9_data_flag_invariance :
    parseCurlCommand sampleCurlInput = .ok sampleCurlResult ∧
    parseCurlCommand sampleDataRawPlain = parseCurlCommand sampleCurlInput ∧
    parseCurlCommand sampleDataDollar = parseCurlCommand sampleCurlInput ∧
    parseCurlCommand sampleDataPlain = parseCurlCommand sampleCurlInput := by
  refine ⟨by decide, by decide, by decide, by decide⟩
